import Mathlib

/-!
Shallow embedding of the Game of Life core of this repository.

The executable core is given as Python in the repository's documentation
(`src/cohesion-guide/README.md`, with the same code excerpted in
`src/cohesion-examples/example-05.ts` and `src/PHASE3_SUMMARY.md`):
the domain objects `Cell`, `Position`, `GridSize`, `Generation`, the
first-class collection `Grid`, the pure `GameRules`, and the orchestrating
`GameEngine`.  Each Lean definition below embeds the correspondingly named
Python definition.

Modelling conventions:
* Python `int` becomes `Int` (arbitrary precision, may be negative);
  the neighbor count, which Python builds as `sum(1 for ...)`, becomes `Nat`.
* The grid's `Dict[Position, Cell]` is modelled as a total function
  `Position → Cell`: `Grid.__init__` fills every in-bounds key with a dead
  cell and `set_cell` only writes in-bounds keys, so `self._cells.get(p, dead)`
  and a function initialised to `dead` everywhere are observationally equal.
* `raise ValueError(f"Position {position} out of bounds")` in `Grid.set_cell`
  becomes the error value `GridError.outOfBounds`.  A mutating method that may
  raise is modelled as returning the pair (result-or-error, post-state), so
  that "the state is unchanged when the call raises" is expressible.
-/

namespace GameOfLife

/-- Embeds `domain/cell.py`: `@dataclass(frozen=True) class Cell: alive: bool`. -/
structure Cell where
  alive : Bool
deriving DecidableEq

/-- Embeds `Cell.alive_cell()`. -/
def Cell.alive_cell : Cell := ⟨true⟩

/-- Embeds `Cell.dead_cell()`. -/
def Cell.dead_cell : Cell := ⟨false⟩

/-- Embeds `Cell.is_alive()`. -/
def Cell.is_alive (c : Cell) : Bool := c.alive

/-- Embeds `Cell.is_dead()`. -/
def Cell.is_dead (c : Cell) : Bool := !c.alive

/-- Embeds `domain/position.py`: `@dataclass(frozen=True) class Position: row: int; col: int`. -/
structure Position where
  row : Int
  col : Int
deriving DecidableEq

/-- Embeds `Position.neighbors()`:
`[Position(self.row + dr, self.col + dc) for dr in [-1, 0, 1] for dc in [-1, 0, 1]
  if not (dr == 0 and dc == 0)]`. -/
def Position.neighbors (p : Position) : List Position :=
  ([-1, 0, 1] : List Int).flatMap (fun dr =>
    ((([-1, 0, 1] : List Int).filter (fun dc => !(dr == 0 && dc == 0))).map
      (fun dc => Position.mk (p.row + dr) (p.col + dc))))

/-- Embeds `domain/grid_size.py`: `@dataclass(frozen=True) class GridSize: width: int; height: int`. -/
structure GridSize where
  width : Int
  height : Int
deriving DecidableEq

/-- Embeds `GridSize.contains(position)`:
`0 <= position.row < self.height and 0 <= position.col < self.width`. -/
def GridSize.contains (s : GridSize) (p : Position) : Bool :=
  decide (0 ≤ p.row ∧ p.row < s.height) && decide (0 ≤ p.col ∧ p.col < s.width)

/-- Embeds `GridSize.all_positions()`:
`[Position(row, col) for row in range(self.height) for col in range(self.width)]`.
Python's `range(n)` is empty for `n ≤ 0`, which `Int.toNat` reproduces. -/
def GridSize.all_positions (s : GridSize) : List Position :=
  (List.range s.height.toNat).flatMap (fun (row : Nat) =>
    (List.range s.width.toNat).map (fun (col : Nat) => Position.mk (row : Int) (col : Int)))

/-- Embeds `raise ValueError(f"Position {position} out of bounds")` in `Grid.set_cell`. -/
inductive GridError where
  | outOfBounds : Position → GridError
deriving DecidableEq

/-- Embeds `domain/grid.py`: `class Grid` owning `_size: GridSize` and
`_cells: Dict[Position, Cell]` (see the modelling conventions above). -/
structure Grid where
  size : GridSize
  cells : Position → Cell

/-- Embeds `Grid.__init__(size)` together with `_initialize_empty()`:
every cell starts dead. -/
def Grid.create (size : GridSize) : Grid :=
  { size := size, cells := fun _ => Cell.dead_cell }

/-- Embeds the dictionary assignment `self._cells[position] = cell`. -/
def Grid.store (g : Grid) (p : Position) (c : Cell) : Grid :=
  { g with cells := fun q => if q = p then c else g.cells q }

/-- Embeds `Grid.set_cell(position, cell)`:
`if not self._size.contains(position): raise ValueError(...)` then
`self._cells[position] = cell`.  Returns (result-or-error, post-state). -/
def Grid.set_cell (g : Grid) (p : Position) (c : Cell) :
    Except GridError Unit × Grid :=
  if g.size.contains p then (Except.ok (), g.store p c)
  else (Except.error (GridError.outOfBounds p), g)

/-- Embeds `Grid.get_cell(position)`:
`if not self._size.contains(position): return Cell.dead_cell()` then
`return self._cells.get(position, Cell.dead_cell())`. -/
def Grid.get_cell (g : Grid) (p : Position) : Cell :=
  if g.size.contains p then g.cells p else Cell.dead_cell

/-- Embeds `Grid.count_living_neighbors(position)`:
`sum(1 for neighbor in position.neighbors()
     if self._size.contains(neighbor) and self.get_cell(neighbor).is_alive())`. -/
def Grid.count_living_neighbors (g : Grid) (p : Position) : Nat :=
  p.neighbors.countP (fun nb => g.size.contains nb && (g.get_cell nb).is_alive)

/-- Embeds `rules/game_rules.py`, `GameRules.calculate_next_state(current_cell,
living_neighbors)`: a live cell survives on `living_neighbors in [2, 3]`, a dead
cell is born on `living_neighbors == 3`, otherwise the result is dead.  Like the
Python original it is total in `living_neighbors : Int`. -/
def GameRules.calculate_next_state (current_cell : Cell) (living_neighbors : Int) : Cell :=
  if current_cell.is_alive then
    if living_neighbors = 2 ∨ living_neighbors = 3 then Cell.alive_cell else Cell.dead_cell
  else
    if living_neighbors = 3 then Cell.alive_cell else Cell.dead_cell

/-- Embeds `domain/generation.py`: `@dataclass(frozen=True) class Generation: number: int`. -/
structure Generation where
  number : Int
deriving DecidableEq

/-- Embeds `Generation.next()`: `Generation(self.number + 1)`. -/
def Generation.next (g : Generation) : Generation := ⟨g.number + 1⟩

/-- Embeds the part of `config/game_config.py` the engine reads in `run()`:
the fixed inter-frame `delay` (held abstractly as an integer number of time
units; the claims never inspect its value, only that the same delay is used
on every iteration). -/
structure GameConfig where
  delay : Int
deriving DecidableEq

/-- Embeds `engine/game_engine.py`: `class GameEngine` holding `grid`,
`generation` and `config` (the injected `rules` and `display` are stateless
collaborators; the display is observed through the event trace of `run`). -/
structure GameEngine where
  grid : Grid
  generation : Generation
  config : GameConfig

/-- Embeds `GameEngine.__init__(grid, config)`: `self.generation = Generation(0)`. -/
def GameEngine.init (grid : Grid) (config : GameConfig) : GameEngine :=
  { grid := grid, generation := ⟨0⟩, config := config }

/-- Embeds `GameEngine._calculate_next_generation()`:
`new_grid = Grid(self.grid.size())`, then for every position of
`self.grid.size().all_positions()` write
`GameRules.calculate_next_state(get_cell, count_living_neighbors)` into the
new grid with `new_grid.set_cell(...)`; a raise inside `set_cell` propagates
(`Except.error` short-circuits the fold exactly as the exception would). -/
def GameEngine.calcNextGeneration (g : Grid) : Except GridError Grid :=
  g.size.all_positions.foldlM
    (fun ng p =>
      match ng.set_cell p
          (GameRules.calculate_next_state (g.get_cell p)
            ((g.count_living_neighbors p : Int))) with
      | (Except.ok _, ng2) => Except.ok ng2
      | (Except.error e, _) => Except.error e)
    (Grid.create g.size)

/-- The raise-free grid transition `_calculate_next_generation` actually
performs (every position written comes from `all_positions`, hence is
in-bounds); `calcNextGeneration_eq_ok` below proves the two agree. -/
def Grid.nextGrid (g : Grid) : Grid :=
  g.size.all_positions.foldl
    (fun ng p =>
      ng.store p
        (GameRules.calculate_next_state (g.get_cell p)
          ((g.count_living_neighbors p : Int))))
    (Grid.create g.size)

/-- Embeds `GameEngine.step()`:
`self.grid = self._calculate_next_generation(); self.generation = self.generation.next()`;
if the grid computation raised, neither field is assigned. -/
def GameEngine.step (e : GameEngine) : Except GridError GameEngine :=
  match GameEngine.calcNextGeneration e.grid with
  | Except.ok ng => Except.ok { e with grid := ng, generation := e.generation.next }
  | Except.error err => Except.error err

/-- `k` consecutive calls of `GameEngine.step`, propagating a raise. -/
def GameEngine.stepIter : Nat → GameEngine → Except GridError GameEngine
  | 0, e => Except.ok e
  | Nat.succ k, e =>
    match e.step with
    | Except.ok e2 => GameEngine.stepIter k e2
    | Except.error err => Except.error err

/-- The raise-free form of one `step` (proved equal to `step` in
`step_eq_ok` below). -/
def GameEngine.stepTotal (e : GameEngine) : GameEngine :=
  { e with grid := Grid.nextGrid e.grid, generation := e.generation.next }

/-- The calls `GameEngine.run()` makes on its collaborators, in order:
`self.display.render(self.grid, self.generation)`, `time.sleep(self.config.delay)`,
and on `KeyboardInterrupt` the exit path `self.display.show_exit_message(...)`
(`_handle_exit` in the repository prints the stop message with the final
generation). -/
inductive DisplayEvent where
  | render : Grid → Generation → DisplayEvent
  | sleep : Int → DisplayEvent
  | exitMessage : Generation → DisplayEvent

/-- Embeds `GameEngine.run()`:
`try: while True: render; sleep; step` with the external `KeyboardInterrupt`
modelled as arriving at the loop boundary after `k` complete iterations
(matching the spec: cancellation breaks the loop between iterations, no step
is interrupted mid-computation), upon which the exit message fires with the
generation reached.  The unreachable raise branch of `step` yields an empty
tail. -/
def GameEngine.runTrace : GameEngine → Nat → List DisplayEvent
  | e, 0 => [DisplayEvent.exitMessage e.generation]
  | e, Nat.succ k =>
    DisplayEvent.render e.grid e.generation ::
    DisplayEvent.sleep e.config.delay ::
    (match e.step with
     | Except.ok e2 => GameEngine.runTrace e2 k
     | Except.error _ => [])

/-- Decidable observational test that every cell of the grid is dead
(out-of-bounds reads are dead by `get_cell`, so checking `all_positions`
covers every observable cell). -/
def Grid.allDead (g : Grid) : Bool :=
  g.size.all_positions.all (fun p => (g.get_cell p).is_dead)

/-- Decidable observational equality of grids: same size and identical cells
at every position of the grid. -/
def Grid.obsEq (g1 g2 : Grid) : Bool :=
  decide (g1.size = g2.size) &&
  g1.size.all_positions.all (fun p => decide (g1.get_cell p = g2.get_cell p))

/-- `p` is a corner of the grid `s`: in-bounds and extreme in both coordinates. -/
def GridSize.isCorner (s : GridSize) (p : Position) : Prop :=
  s.contains p = true ∧ (p.row = 0 ∨ p.row = s.height - 1) ∧
    (p.col = 0 ∨ p.col = s.width - 1)

/-- `p` is on the boundary of the grid `s`: in-bounds and extreme in at least
one coordinate. -/
def GridSize.isBoundary (s : GridSize) (p : Position) : Prop :=
  s.contains p = true ∧ (p.row = 0 ∨ p.row = s.height - 1 ∨
    p.col = 0 ∨ p.col = s.width - 1)

/-- `p` is an edge (non-corner) position of the grid `s`. -/
def GridSize.isEdge (s : GridSize) (p : Position) : Prop :=
  s.isBoundary p ∧ ¬ s.isCorner p

/-- `p` is an interior position of the grid `s`. -/
def GridSize.isInterior (s : GridSize) (p : Position) : Prop :=
  s.contains p = true ∧ ¬ s.isBoundary p

instance (s : GridSize) (p : Position) : Decidable (s.isCorner p) := by
  unfold GridSize.isCorner
  infer_instance

instance (s : GridSize) (p : Position) : Decidable (s.isBoundary p) := by
  unfold GridSize.isBoundary
  infer_instance

instance (s : GridSize) (p : Position) : Decidable (s.isEdge p) := by
  unfold GridSize.isEdge
  infer_instance

instance (s : GridSize) (p : Position) : Decidable (s.isInterior p) := by
  unfold GridSize.isInterior
  infer_instance

/-- The blinker seeded as a horizontal 3-cell line centered in a 5×5 grid,
built through `set_cell` the way the repository's seeding does. -/
def blinkerHorizontal : Grid :=
  ((((Grid.create ⟨5, 5⟩).set_cell ⟨2, 1⟩ Cell.alive_cell).2.set_cell
      ⟨2, 2⟩ Cell.alive_cell).2.set_cell ⟨2, 3⟩ Cell.alive_cell).2

/-- The same blinker rotated: a vertical 3-cell line centered in a 5×5 grid. -/
def blinkerVertical : Grid :=
  ((((Grid.create ⟨5, 5⟩).set_cell ⟨1, 2⟩ Cell.alive_cell).2.set_cell
      ⟨2, 2⟩ Cell.alive_cell).2.set_cell ⟨3, 2⟩ Cell.alive_cell).2

section Theorems

/-- A comprehension `for row in range(h) for col in range(w)` enumerates the
same pairs as the single row-major index scan `i ↦ (i / w, i % w)`. -/
theorem range_flatMap_eq {α : Type} (w : Nat) (f : Nat → Nat → α) :
    ∀ (n : Nat), (List.range n).flatMap (fun r => (List.range w).map (f r)) =
      (List.range (n * w)).map (fun i => f (i / w) (i % w)) := by
  intro n
  induction n with
  | zero => simp
  | succ n ih =>
    rw [List.range_succ, List.flatMap_append, ih, Nat.succ_mul, List.range_add,
      List.map_append]
    congr 1
    simp only [List.flatMap_cons, List.flatMap_nil, List.append_nil, List.map_map]
    apply List.map_congr_left
    intro a ha
    have hiw : a < w := List.mem_range.mp ha
    have h1 : (n * w + a) / w = n := by
      rw [Nat.add_comm, Nat.add_mul_div_right _ _ (by omega : 0 < w),
        Nat.div_eq_of_lt hiw]
      omega
    have h2 : (n * w + a) % w = a := by
      rw [Nat.mul_comm n w, Nat.mul_add_mod, Nat.mod_eq_of_lt hiw]
    simp [Function.comp, h1, h2]

/-- `all_positions` is the row-major scan: the `i`-th position is
row `i / width`, column `i % width`. -/
theorem all_positions_rowMajor (s : GridSize) :
    s.all_positions = (List.range (s.height.toNat * s.width.toNat)).map
      (fun i => Position.mk ((i / s.width.toNat : Nat) : Int)
        ((i % s.width.toNat : Nat) : Int)) := by
  unfold GridSize.all_positions
  exact range_flatMap_eq s.width.toNat
    (fun r c => Position.mk (r : Int) (c : Int)) s.height.toNat

/-- `all_positions` enumerates without repetition. -/
theorem all_positions_nodup (s : GridSize) : s.all_positions.Nodup := by
  rw [all_positions_rowMajor]
  refine List.Nodup.map ?_ (List.nodup_range _)
  intro i j hij
  simp only [Position.mk.injEq, Nat.cast_inj] at hij
  obtain ⟨hd, hm⟩ := hij
  calc i = s.width.toNat * (i / s.width.toNat) + i % s.width.toNat :=
        (Nat.div_add_mod i s.width.toNat).symm
    _ = s.width.toNat * (j / s.width.toNat) + j % s.width.toNat := by rw [hd, hm]
    _ = j := Nat.div_add_mod j s.width.toNat

/-- `all_positions` enumerates exactly the in-bounds positions. -/
theorem mem_all_positions (s : GridSize) (p : Position) :
    p ∈ s.all_positions ↔ s.contains p = true := by
  simp only [GridSize.all_positions, List.mem_flatMap, List.mem_map, List.mem_range,
    GridSize.contains, Bool.and_eq_true, decide_eq_true_eq]
  constructor
  · rintro ⟨r, hr, c, hc, rfl⟩
    simp only
    omega
  · rintro ⟨⟨h1, h2⟩, h3, h4⟩
    refine ⟨p.row.toNat, ?_, p.col.toNat, ?_, ?_⟩
    · omega
    · omega
    · obtain ⟨row, col⟩ := p
      simp only [Position.mk.injEq]
      constructor <;> simp_all

/-- `all_positions` has `height * width` entries. -/
theorem all_positions_length (s : GridSize) :
    s.all_positions.length = s.height.toNat * s.width.toNat := by
  rw [all_positions_rowMajor, List.length_map, List.length_range]

/-- `Position.neighbors` evaluated: the 8 offset positions, row-major
over the offsets, no bounds filtering. -/
theorem neighbors_explicit (p : Position) : p.neighbors =
    [⟨p.row - 1, p.col - 1⟩, ⟨p.row - 1, p.col⟩, ⟨p.row - 1, p.col + 1⟩,
     ⟨p.row, p.col - 1⟩, ⟨p.row, p.col + 1⟩,
     ⟨p.row + 1, p.col - 1⟩, ⟨p.row + 1, p.col⟩, ⟨p.row + 1, p.col + 1⟩] := by
  simp [Position.neighbors]
  omega

/-- Only in-bounds neighbors can be counted. -/
theorem count_le_inBounds (g : Grid) (p : Position) :
    g.count_living_neighbors p ≤ p.neighbors.countP (fun nb => g.size.contains nb) := by
  apply List.countP_mono_left
  intro nb _ h
  exact (Bool.and_eq_true _ _ |>.mp h).1

/-- A corner has at most 3 in-bounds neighbors. -/
theorem countP_contains_corner (s : GridSize) (p : Position) (h : s.isCorner p) :
    p.neighbors.countP (fun nb => s.contains nb) ≤ 3 := by
  obtain ⟨hc, hr, hcc⟩ := h
  simp only [GridSize.contains, Bool.and_eq_true, decide_eq_true_eq] at hc
  rw [neighbors_explicit]
  simp only [List.countP_cons, List.countP_nil, GridSize.contains, Bool.and_eq_true,
    decide_eq_true_eq]
  split_ifs <;> omega

/-- An edge (non-corner) has at most 5 in-bounds neighbors. -/
theorem countP_contains_edge (s : GridSize) (p : Position) (h : s.isEdge p) :
    p.neighbors.countP (fun nb => s.contains nb) ≤ 5 := by
  obtain ⟨⟨hc, hb⟩, hnc⟩ := h
  simp only [GridSize.contains, Bool.and_eq_true, decide_eq_true_eq] at hc
  simp only [GridSize.isCorner, GridSize.contains, Bool.and_eq_true, decide_eq_true_eq,
    not_and, not_or] at hnc
  rw [neighbors_explicit]
  simp only [List.countP_cons, List.countP_nil, GridSize.contains, Bool.and_eq_true,
    decide_eq_true_eq]
  split_ifs <;> omega

/-- The neighbor count never exceeds the 8 neighbor positions. -/
theorem count_le_eight (g : Grid) (p : Position) : g.count_living_neighbors p ≤ 8 := by
  calc g.count_living_neighbors p ≤ p.neighbors.length := List.countP_le_length _
    _ = 8 := by rw [neighbors_explicit]; rfl

/-- The neighbor count is computed from the in-bounds neighbors alone. -/
theorem count_from_inBounds (g : Grid) (p : Position) :
    g.count_living_neighbors p =
      (p.neighbors.filter (fun nb => g.size.contains nb)).countP
        (fun nb => (g.get_cell nb).is_alive) := by
  rw [Grid.count_living_neighbors, List.countP_filter]
  apply List.countP_congr
  intro nb _
  rw [Bool.and_comm]

/-- Cells after a fold of stores: the written value at written positions,
the original cell elsewhere. -/
theorem foldl_store_cells (f : Position → Cell) :
    ∀ (l : List Position) (g0 : Grid) (p : Position),
      (l.foldl (fun ng q => ng.store q (f q)) g0).cells p =
        if p ∈ l then f p else g0.cells p := by
  intro l
  induction l with
  | nil => intro g0 p; simp
  | cons a l ih =>
    intro g0 p
    rw [List.foldl_cons, ih]
    by_cases hpl : p ∈ l
    · simp [hpl]
    by_cases hpa : p = a
    · subst hpa
      simp [hpl, Grid.store]
    · simp [hpl, hpa, Grid.store]

/-- Storing cells never changes the grid's size. -/
theorem foldl_store_size (f : Position → Cell) :
    ∀ (l : List Position) (g0 : Grid),
      (l.foldl (fun ng q => ng.store q (f q)) g0).size = g0.size := by
  intro l
  induction l with
  | nil => intro g0; rfl
  | cons a l ih => intro g0; rw [List.foldl_cons, ih]; rfl

/-- When every written position is in-bounds, the raising fold of `set_cell`
is the raise-free fold of stores. -/
theorem foldlM_set_cell_eq (f : Position → Cell) :
    ∀ (l : List Position) (g0 : Grid), (∀ q ∈ l, g0.size.contains q = true) →
      (l.foldlM (fun ng p =>
        match ng.set_cell p (f p) with
        | (Except.ok _, ng2) => Except.ok ng2
        | (Except.error e, _) => Except.error e) g0)
      = Except.ok (l.foldl (fun ng p => ng.store p (f p)) g0) := by
  intro l
  induction l with
  | nil => intro g0 _; rfl
  | cons a l ih =>
    intro g0 h
    have ha : g0.size.contains a = true := h a (by simp)
    rw [List.foldlM_cons]
    simp only [Grid.set_cell, ha, if_pos]
    rw [List.foldl_cons]
    exact ih (g0.store a (f a)) (fun q hq => h q (by simp [hq]))

/-- `_calculate_next_generation` never raises: it writes only positions of
`all_positions`, all in-bounds. -/
theorem calcNextGeneration_eq_ok (g : Grid) :
    GameEngine.calcNextGeneration g = Except.ok (Grid.nextGrid g) := by
  apply foldlM_set_cell_eq
  intro q hq
  show g.size.contains q = true
  exact (mem_all_positions g.size q).mp hq

/-- `GameEngine.step` never raises and is the total transition `stepTotal`. -/
theorem step_eq_ok (e : GameEngine) : e.step = Except.ok e.stepTotal := by
  unfold GameEngine.step
  rw [calcNextGeneration_eq_ok]
  rfl

/-- The new grid keeps the old grid's size. -/
theorem nextGrid_size (g : Grid) : (Grid.nextGrid g).size = g.size :=
  foldl_store_size _ _ _

/-- Pointwise description of the grid `step` builds: Conway's rule applied to
the old cell and its neighbor count at every in-bounds position. -/
theorem get_nextGrid (g : Grid) (p : Position) :
    (Grid.nextGrid g).get_cell p =
      if g.size.contains p = true then
        GameRules.calculate_next_state (g.get_cell p) ((g.count_living_neighbors p : Int))
      else Cell.dead_cell := by
  rw [Grid.get_cell, nextGrid_size]
  show (if g.size.contains p = true then _ else _) = _
  by_cases hc : g.size.contains p = true
  · rw [if_pos hc, if_pos hc, Grid.nextGrid, foldl_store_cells]
    rw [if_pos ((mem_all_positions g.size p).mpr hc)]
  · rw [if_neg hc, if_neg hc]

/-- In an all-dead grid every neighbor count is 0. -/
theorem count_eq_zero_of_allDead (g : Grid) (h : g.allDead = true) (p : Position) :
    g.count_living_neighbors p = 0 := by
  rw [Grid.count_living_neighbors, List.countP_eq_zero]
  intro nb _
  by_cases hc : g.size.contains nb = true
  · have hdead := (List.all_eq_true.mp h) nb ((mem_all_positions g.size nb).mpr hc)
    simp only [Cell.is_dead] at hdead
    simp [Cell.is_alive, hdead]
    intro
    simp_all
  · simp [hc]

/-- With 0 living neighbors the rules always produce a dead cell. -/
theorem rules_zero_dead (c : Cell) :
    GameRules.calculate_next_state c 0 = Cell.dead_cell := by
  obtain ⟨a⟩ := c
  cases a <;> simp [GameRules.calculate_next_state, Cell.is_alive]

/-- One grid transition keeps an all-dead grid all-dead. -/
theorem nextGrid_allDead (g : Grid) (h : g.allDead = true) :
    (Grid.nextGrid g).allDead = true := by
  rw [Grid.allDead, List.all_eq_true]
  intro p hp
  rw [nextGrid_size] at hp
  rw [get_nextGrid, count_eq_zero_of_allDead g h]
  rw [if_pos ((mem_all_positions g.size p).mp hp)]
  norm_num
  rw [rules_zero_dead]
  rfl

/-- Unfolding one iteration of `stepIter` through the never-raising `step`. -/
theorem stepIter_succ (k : Nat) (e : GameEngine) :
    GameEngine.stepIter (k + 1) e = GameEngine.stepIter k e.stepTotal := by
  show (match e.step with
    | Except.ok e2 => GameEngine.stepIter k e2
    | Except.error err => Except.error err) = _
  rw [step_eq_ok]

/-- `k` steps never raise and iterate the total transition. -/
theorem stepIter_eq_ok (k : Nat) :
    ∀ e : GameEngine, GameEngine.stepIter k e =
      Except.ok (GameEngine.stepTotal^[k] e) := by
  induction k with
  | zero => intro e; rfl
  | succ k ih =>
    intro e
    rw [stepIter_succ, ih, Function.iterate_succ_apply]

/-- After `k` steps the generation number has grown by exactly `k`. -/
theorem stepTotal_iterate_generation (k : Nat) :
    ∀ e : GameEngine, (GameEngine.stepTotal^[k] e).generation.number =
      e.generation.number + k := by
  induction k with
  | zero => intro e; simp
  | succ k ih =>
    intro e
    rw [Function.iterate_succ_apply, ih]
    show e.generation.number + 1 + (k : Int) = _
    push_cast
    ring

/-- After `k` steps the grid is the `k`-fold grid transition. -/
theorem stepTotal_iterate_grid (k : Nat) :
    ∀ e : GameEngine, (GameEngine.stepTotal^[k] e).grid =
      Grid.nextGrid^[k] e.grid := by
  induction k with
  | zero => intro e; rfl
  | succ k ih =>
    intro e
    rw [Function.iterate_succ_apply, Function.iterate_succ_apply, ih]
    rfl

/-- Stepping never changes the configuration. -/
theorem stepTotal_iterate_config (k : Nat) :
    ∀ e : GameEngine, (GameEngine.stepTotal^[k] e).config = e.config := by
  induction k with
  | zero => intro e; rfl
  | succ k ih =>
    intro e
    rw [Function.iterate_succ_apply, ih]
    rfl

/-- Any number of grid transitions keeps an all-dead grid all-dead. -/
theorem nextGrid_iterate_allDead (k : Nat) :
    ∀ g : Grid, g.allDead = true → (Grid.nextGrid^[k] g).allDead = true := by
  induction k with
  | zero => intro g h; exact h
  | succ k ih =>
    intro g h
    rw [Function.iterate_succ_apply]
    exact ih _ (nextGrid_allDead g h)

/-- Unfolding one iteration of the run loop through the never-raising `step`. -/
theorem runTrace_succ (e : GameEngine) (k : Nat) :
    e.runTrace (k + 1) = DisplayEvent.render e.grid e.generation ::
      DisplayEvent.sleep e.config.delay :: e.stepTotal.runTrace k := by
  show DisplayEvent.render e.grid e.generation ::
      DisplayEvent.sleep e.config.delay ::
      (match e.step with
       | Except.ok e2 => GameEngine.runTrace e2 k
       | Except.error _ => []) = _
  rw [step_eq_ok]

/-- The run loop's full event trace: one render-then-sleep block per
iteration, in step order, closed by the exit message. -/
theorem runTrace_spec (k : Nat) :
    ∀ e : GameEngine, GameEngine.runTrace e k =
      (List.range k).flatMap (fun i =>
        [DisplayEvent.render (GameEngine.stepTotal^[i] e).grid
            (GameEngine.stepTotal^[i] e).generation,
         DisplayEvent.sleep e.config.delay]) ++
      [DisplayEvent.exitMessage (GameEngine.stepTotal^[k] e).generation] := by
  induction k with
  | zero => intro e; rfl
  | succ k ih =>
    intro e
    rw [runTrace_succ, ih, List.range_succ_eq_map]
    simp only [List.flatMap_cons, Function.iterate_zero_apply, List.flatMap_map]
    simp only [Function.iterate_succ_apply, List.cons_append, List.nil_append]
    have hc : e.stepTotal.config = e.config := rfl
    rw [hc]

/-- C1: for every cell state `c` (alive or dead) and every living-neighbor
count `n` with `0 ≤ n ≤ 8`, `GameRules.calculate_next_state c n` returns an
alive cell if and only if either `c` is alive and `n` is 2 or 3, or `c` is
dead and `n` is exactly 3; in every other case it returns a dead cell. -/
theorem claim_C1_rules_exhaustive (c : Cell) (n : Int) (hn0 : 0 ≤ n) (hn8 : n ≤ 8) :
    (GameRules.calculate_next_state c n = Cell.alive_cell ↔
      ((c.is_alive = true ∧ (n = 2 ∨ n = 3)) ∨ (c.is_alive = false ∧ n = 3))) ∧
    (¬((c.is_alive = true ∧ (n = 2 ∨ n = 3)) ∨ (c.is_alive = false ∧ n = 3)) →
      GameRules.calculate_next_state c n = Cell.dead_cell) := by
  obtain ⟨a⟩ := c
  cases a <;>
    simp [GameRules.calculate_next_state, Cell.is_alive, Cell.alive_cell, Cell.dead_cell] <;>
    omega

/-- Witness for C1 at the concrete input (alive cell, 2 neighbors). -/
theorem claim_C1_witness :
    GameRules.calculate_next_state Cell.alive_cell 2 = Cell.alive_cell :=
  (claim_C1_rules_exhaustive Cell.alive_cell 2 (by decide) (by decide)).1.mpr
    (Or.inl ⟨rfl, Or.inl rfl⟩)

/-- C2: for every grid and position, `Grid.count_living_neighbors` returns an
integer between 0 and 8 inclusive (the result is a `Nat`, hence nonnegative),
out-of-bounds neighbor positions never contribute (the count is computed from
the in-bounds neighbors alone), a corner position counts at most 3, an edge
(non-corner) position at most 5, and an interior position at most 8. -/
theorem claim_C2_neighbor_count_bounds (g : Grid) (p : Position) :
    g.count_living_neighbors p ≤ 8 ∧
    g.count_living_neighbors p =
      (p.neighbors.filter (fun nb => g.size.contains nb)).countP
        (fun nb => (g.get_cell nb).is_alive) ∧
    (g.size.isCorner p → g.count_living_neighbors p ≤ 3) ∧
    (g.size.isEdge p → g.count_living_neighbors p ≤ 5) ∧
    (g.size.isInterior p → g.count_living_neighbors p ≤ 8) := by
  refine ⟨count_le_eight g p, count_from_inBounds g p, ?_, ?_,
    fun _ => count_le_eight g p⟩
  · intro h
    exact le_trans (count_le_inBounds g p) (countP_contains_corner _ _ h)
  · intro h
    exact le_trans (count_le_inBounds g p) (countP_contains_edge _ _ h)

/-- Witness for C2 on a concrete 5×5 grid at a corner, an edge and an
interior position. -/
theorem claim_C2_witness :
    blinkerHorizontal.count_living_neighbors ⟨0, 0⟩ ≤ 3 ∧
    blinkerHorizontal.count_living_neighbors ⟨0, 2⟩ ≤ 5 ∧
    blinkerHorizontal.count_living_neighbors ⟨2, 2⟩ ≤ 8 :=
  ⟨(claim_C2_neighbor_count_bounds blinkerHorizontal ⟨0, 0⟩).2.2.1 (by decide),
   (claim_C2_neighbor_count_bounds blinkerHorizontal ⟨0, 2⟩).2.2.2.1 (by decide),
   (claim_C2_neighbor_count_bounds blinkerHorizontal ⟨2, 2⟩).2.2.2.2 (by decide)⟩

/-- C3: for every position `(row, col)`, `Position.neighbors` returns exactly
the 8 positions `(row+dr, col+dc)` for offsets `dr, dc ∈ {-1, 0, 1}` with
`(dr, dc) ≠ (0, 0)`, in the fixed row-major offset order, with no bounds
filtering applied. -/
theorem claim_C3_neighbors_offsets (p : Position) :
    p.neighbors =
      [⟨p.row - 1, p.col - 1⟩, ⟨p.row - 1, p.col⟩, ⟨p.row - 1, p.col + 1⟩,
       ⟨p.row, p.col - 1⟩, ⟨p.row, p.col + 1⟩,
       ⟨p.row + 1, p.col - 1⟩, ⟨p.row + 1, p.col⟩, ⟨p.row + 1, p.col + 1⟩] :=
  neighbors_explicit p

/-- C4: for every `GridSize` with positive width and height, `all_positions`
enumerates exactly `width * height` positions, each exactly once (`Nodup`),
in deterministic row-major order (the `i`-th position is row `i / width`,
column `i % width`), and `contains` holds for every enumerated position. -/
theorem claim_C4_all_positions (s : GridSize) (hw : 0 < s.width) (hh : 0 < s.height) :
    ((s.all_positions.length : Int) = s.width * s.height) ∧
    s.all_positions.Nodup ∧
    (s.all_positions = (List.range (s.height.toNat * s.width.toNat)).map
      (fun i => Position.mk ((i / s.width.toNat : Nat) : Int)
        ((i % s.width.toNat : Nat) : Int))) ∧
    s.all_positions.all (fun p => s.contains p) = true := by
  refine ⟨?_, all_positions_nodup s, all_positions_rowMajor s, ?_⟩
  · rw [all_positions_length]
    push_cast [Int.toNat_of_nonneg hh.le, Int.toNat_of_nonneg hw.le]
    ring
  · rw [List.all_eq_true]
    intro p hp
    exact (mem_all_positions s p).mp hp

/-- Witness for C4 at the concrete 3×2 grid size. -/
theorem claim_C4_witness :
    (0 : Int) < (GridSize.mk 3 2).width ∧ (0 : Int) < (GridSize.mk 3 2).height ∧
    (((GridSize.mk 3 2).all_positions.length : Int) = 3 * 2) ∧
    (GridSize.mk 3 2).all_positions.Nodup ∧
    (GridSize.mk 3 2).all_positions.all (fun p => (GridSize.mk 3 2).contains p) = true := by
  have h := claim_C4_all_positions (GridSize.mk 3 2) (by decide) (by decide)
  exact ⟨by decide, by decide, h.1, h.2.1, h.2.2.2⟩

/-- C5: one call to `step` replaces the grid with the newly computed grid and
the generation with `generation.next` together, as one atomic transition (the
returned engine carries both new values simultaneously, with no partial state
observable), the new generation number equals the old plus one, the counter
starts at 0 at engine construction, and after `k` steps it has grown by
exactly `k` — it never decreases and never skips. -/
theorem claim_C5_step_atomic_increment (e : GameEngine) (g : Grid) (cfg : GameConfig)
    (k : Nat) :
    e.step = Except.ok
      (GameEngine.mk (Grid.nextGrid e.grid) e.generation.next e.config) ∧
    e.generation.next.number = e.generation.number + 1 ∧
    (GameEngine.init g cfg).generation.number = 0 ∧
    (∃ ek, GameEngine.stepIter k e = Except.ok ek ∧
      ek.generation.number = e.generation.number + k) := by
  refine ⟨?_, rfl, rfl,
    GameEngine.stepTotal^[k] e, stepIter_eq_ok k e, stepTotal_iterate_generation k e⟩
  rw [step_eq_ok]
  rfl

/-- C6: the blinker — a 3-cell horizontal line centered in a 5×5 grid, away
from the edges — becomes the centered 3-cell vertical line after one `step`,
and returns to the original horizontal line after a second `step`: an
oscillator of period 2. -/
theorem claim_C6_blinker_oscillates :
    ∃ e1 e2 : GameEngine,
      (GameEngine.init blinkerHorizontal ⟨1⟩).step = Except.ok e1 ∧
      e1.grid.obsEq blinkerVertical = true ∧
      e1.step = Except.ok e2 ∧
      e2.grid.obsEq blinkerHorizontal = true := by
  refine ⟨(GameEngine.init blinkerHorizontal ⟨1⟩).stepTotal,
    (GameEngine.init blinkerHorizontal ⟨1⟩).stepTotal.stepTotal,
    step_eq_ok _, ?_, step_eq_ok _, ?_⟩ <;> decide

/-- C7: for every grid in which every cell is dead, `step` produces a grid in
which every cell is dead, and an all-dead grid remains all-dead after any
number `k` of steps — no spontaneous generation. -/
theorem claim_C7_all_dead_stasis (g : Grid) (cfg : GameConfig) (k : Nat)
    (h : g.allDead = true) :
    (∃ e1, (GameEngine.init g cfg).step = Except.ok e1 ∧ e1.grid.allDead = true) ∧
    (∃ ek, GameEngine.stepIter k (GameEngine.init g cfg) = Except.ok ek ∧
      ek.grid.allDead = true) := by
  constructor
  · exact ⟨_, step_eq_ok _, nextGrid_allDead g h⟩
  · refine ⟨_, stepIter_eq_ok k _, ?_⟩
    rw [stepTotal_iterate_grid]
    show (Grid.nextGrid^[k] g).allDead = true
    exact nextGrid_iterate_allDead k g h

/-- Witness for C7 on a concrete all-dead 3×3 grid over 2 steps. -/
theorem claim_C7_witness :
    (Grid.create ⟨3, 3⟩).allDead = true ∧
    (∃ ek, GameEngine.stepIter 2 (GameEngine.init (Grid.create ⟨3, 3⟩) ⟨1⟩) =
      Except.ok ek ∧ ek.grid.allDead = true) :=
  ⟨by decide, (claim_C7_all_dead_stasis (Grid.create ⟨3, 3⟩) ⟨1⟩ 2 (by decide)).2⟩

/-- C8: `Grid.set_cell p c` fails with the out-of-bounds error if and only if
`size.contains p` is false; on failure the grid is unchanged, and on success
it overwrites the stored cell at `p` while every other position's stored cell
— and the grid's size — is unchanged. -/
theorem claim_C8_set_cell (g : Grid) (p : Position) (c : Cell) :
    ((g.set_cell p c).1 = Except.error (GridError.outOfBounds p) ↔
      g.size.contains p = false) ∧
    (g.size.contains p = false → (g.set_cell p c).2 = g) ∧
    (g.size.contains p = true →
      (g.set_cell p c).1 = Except.ok () ∧
      ((g.set_cell p c).2).cells p = c ∧
      (∀ q, q ≠ p → ((g.set_cell p c).2).cells q = g.cells q) ∧
      ((g.set_cell p c).2).size = g.size) := by
  by_cases hc : g.size.contains p = true
  · refine ⟨?_, ?_, fun _ => ⟨?_, ?_, ?_, ?_⟩⟩
    · simp [Grid.set_cell, hc]
    · simp [hc]
    · simp [Grid.set_cell, hc]
    · simp [Grid.set_cell, hc, Grid.store]
    · intro q hq
      simp [Grid.set_cell, hc, Grid.store, hq]
    · simp [Grid.set_cell, hc, Grid.store]
  · have hc2 : g.size.contains p = false := by simp_all
    refine ⟨?_, fun _ => ?_, fun h => absurd h hc⟩
    · simp [Grid.set_cell, hc2]
    · simp [Grid.set_cell, hc2]

/-- Witness for C8 on a concrete 2×2 grid: failure at the out-of-bounds
position (5, 5) leaves the grid unchanged; success at (0, 0) stores the cell
and changes nothing else. -/
theorem claim_C8_witness :
    ((Grid.create ⟨2, 2⟩).set_cell ⟨5, 5⟩ Cell.alive_cell).2 = Grid.create ⟨2, 2⟩ ∧
    (((Grid.create ⟨2, 2⟩).set_cell ⟨0, 0⟩ Cell.alive_cell).1 = Except.ok () ∧
      (((Grid.create ⟨2, 2⟩).set_cell ⟨0, 0⟩ Cell.alive_cell).2).cells ⟨0, 0⟩ =
        Cell.alive_cell ∧
      (∀ q, q ≠ (⟨0, 0⟩ : Position) →
        (((Grid.create ⟨2, 2⟩).set_cell ⟨0, 0⟩ Cell.alive_cell).2).cells q =
          (Grid.create ⟨2, 2⟩).cells q) ∧
      (((Grid.create ⟨2, 2⟩).set_cell ⟨0, 0⟩ Cell.alive_cell).2).size =
        (Grid.create ⟨2, 2⟩).size) :=
  ⟨(claim_C8_set_cell (Grid.create ⟨2, 2⟩) ⟨5, 5⟩ Cell.alive_cell).2.1 (by decide),
   (claim_C8_set_cell (Grid.create ⟨2, 2⟩) ⟨0, 0⟩ Cell.alive_cell).2.2 (by decide)⟩

/-- C9: the run loop's event trace, with external cancellation modelled as
arriving after `k` complete iterations, is exactly: for each iteration, a
render of the current grid and generation followed by the fixed delay, with
`step` advancing the state between iterations, closed by a final exit message
carrying the last generation reached (whose number is the initial one plus
`k`). -/
theorem claim_C9_run_loop_trace (e : GameEngine) (k : Nat) :
    GameEngine.runTrace e k =
      (List.range k).flatMap (fun i =>
        [DisplayEvent.render (GameEngine.stepTotal^[i] e).grid
            (GameEngine.stepTotal^[i] e).generation,
         DisplayEvent.sleep e.config.delay]) ++
      [DisplayEvent.exitMessage (GameEngine.stepTotal^[k] e).generation] ∧
    (GameEngine.stepTotal^[k] e).generation.number = e.generation.number + k :=
  ⟨runTrace_spec k e, stepTotal_iterate_generation k e⟩

/-- C10: `GameRules.calculate_next_state` is total over every integer
living-neighbor count, not only 0 through 8: for any alive cell it returns a
dead cell whenever the count is not 2 or 3, for any dead cell it returns a
dead cell whenever the count is not exactly 3, and (being a total Lean
function over `Int`, like the Python original over `int`) it never raises. -/
theorem claim_C10_rules_total (c : Cell) (n : Int) :
    (c.is_alive = true → n ≠ 2 → n ≠ 3 →
      GameRules.calculate_next_state c n = Cell.dead_cell) ∧
    (c.is_alive = false → n ≠ 3 →
      GameRules.calculate_next_state c n = Cell.dead_cell) := by
  obtain ⟨a⟩ := c
  cases a <;>
    simp [GameRules.calculate_next_state, Cell.is_alive, Cell.alive_cell, Cell.dead_cell] <;>
    omega

/-- Witness for C10 at the concrete input (alive cell, −5 neighbors),
outside the 0..8 range. -/
theorem claim_C10_witness :
    GameRules.calculate_next_state Cell.alive_cell (-5) = Cell.dead_cell :=
  (claim_C10_rules_total Cell.alive_cell (-5)).1 rfl (by decide) (by decide)

end Theorems

end GameOfLife
